import Mathlib

set_option maxHeartbeats 1000000

namespace PackageTracker

/-! Shallow embedding of the package-tracking reconciliation engine of
src/package-tracker.py (function main, lines 108-164) together with the
carrier-side snapshot construction of track_correoschile (lines 16-55) and
the canonical URL derivation of correoschile.py (function track).

Timestamps have minute resolution and are modelled as natural numbers on an
absolute minute scale; datetime comparison is Nat comparison.  The calls to
datetime.now() are modelled by an external clock value passed in as a
parameter (no claim depends on successive now() calls differing within a
run).  Python dictionaries are modelled as association lists whose keys are
unique in every state the program actually builds; dictionary assignment is
first-occurrence overwrite, and defaultdict(list) access appends a fresh key
at the end. -/

/-- One observed status change, as built from a tracking-table row
(src/package-tracker.py lines 43-50): a status string and a location string. -/
structure Event where
  status : String
  location : String
deriving DecidableEq, Repr

/-- Model of a timestamp string of the persisted log.  A valid string is the
strftime rendering of a minute-resolution timestamp t in TIMESTAMP_FORMAT
(src/package-tracker.py line 13); the rendering is injective and lossless at
minute resolution, so strptime after strftime is the identity.  The malformed
constructor stands for any string rejected by strptime. -/
inductive TSString where
  | valid (t : Nat)
  | malformed (s : String)
deriving DecidableEq, Repr

/-- The snapshot returned by track_correoschile (lines 28-55): the updates
table keyed by timestamp, and the delivered flag. -/
structure TrackingInfo where
  updates : List (Nat × Event)
  delivered : Bool
deriving DecidableEq, Repr

/-- One tracking-log entry (lines 114-119): last_check and last_update are
persisted timestamp strings or None, delivered is a boolean, and updates maps
timestamp strings to events. -/
structure Entry where
  last_check : Option TSString
  last_update : Option TSString
  delivered : Bool
  updates : List (TSString × Event)
deriving DecidableEq, Repr

/-- The default entry created for a number first seen (lines 113-119). -/
def defaultEntry : Entry :=
  { last_check := none, last_update := none, delivered := false, updates := [] }

/-- Dictionary lookup on an association list (first occurrence wins, as in a
Python dict, whose keys are unique). -/
def lookupKey {α β : Type} [DecidableEq α] (k : α) : List (α × β) → Option β
  | [] => none
  | p :: t => if p.1 = k then some p.2 else lookupKey k t

/-- Dictionary assignment d[k] = v: overwrite the first occurrence of the
key, or append the pair when the key is absent. -/
def updateKey {α β : Type} [DecidableEq α] : List (α × β) → α → β → List (α × β)
  | [], k, v => [(k, v)]
  | p :: t, k, v => if p.1 = k then (k, v) :: t else p :: updateKey t k v

/-- defaultdict(list) access plus append (lines 108, 132, 148): append the
item to the list of the key, creating the key at the end when absent. -/
def appendItem : List (String × List (Nat × String)) → String → (Nat × String) →
    List (String × List (Nat × String))
  | [], k, it => [(k, [it])]
  | p :: t, k, it =>
    if p.1 = k then (p.1, p.2 ++ [it]) :: t else p :: appendItem t k it

/-- The list held by a digest category (empty when the category is absent). -/
def digestGet (d : List (String × List (Nat × String))) (k : String) :
    List (Nat × String) :=
  (lookupKey k d).getD []

/-- Lines 140-144: strptime(entry[...], TIMESTAMP_FORMAT) under
try/except TypeError.  None raises TypeError, which is caught and yields no
watermark; a malformed string raises ValueError, which is NOT caught and
propagates (modelled as the error result); a valid string parses back to its
timestamp. -/
def parseLastUpdate : Option TSString → Except Unit (Option Nat)
  | none => Except.ok none
  | some (TSString.valid t) => Except.ok (some t)
  | some (TSString.malformed _) => Except.error ()

/-- Line 147: the condition (last_update is None or x > last_update). -/
def isNewB (w : Option Nat) (x : Nat) : Bool :=
  match w with
  | none => true
  | some v => decide (v < x)

/-- Lines 146-148: the loop collecting the (timestamp, status) pairs of the
snapshot entries classified new, in snapshot order. -/
def computeNew (w : Option Nat) (l : List (Nat × Event)) : List (Nat × String) :=
  l.foldl (fun acc p => if isNewB w p.1 then acc ++ [(p.1, p.2.status)] else acc) []

/-- Lines 151-152: entry[...].update over the snapshot, assigning each
snapshot pair under its rendered timestamp string key. -/
def mergeUpdates (u : List (TSString × Event)) (snap : List (Nat × Event)) :
    List (TSString × Event) :=
  snap.foldl (fun acc p => updateKey acc (TSString.valid p.1) p.2) u

/-- Line 153: max(updates.keys()) over a non-empty key set of naturals,
equal to the left fold of max from 0. -/
def maxKey (l : List (Nat × Event)) : Nat :=
  l.foldl (fun a p => max a p.1) 0

/-- The result of one reconciliation of an entry against a snapshot: the
mutated entry, the new (timestamp, status) pairs reported for the digest, and
whether the finished-tracking branch of line 131 fires. -/
structure RecRes where
  entry : Entry
  newEvents : List (Nat × String)
  notify : Bool
deriving DecidableEq, Repr

/-- The per-number reconciliation of main, lines 126-153, for one entry and
one fetched snapshot.  Line 127 sets last_check; line 130 overwrites
delivered with the snapshot flag; line 131 computes the finished-tracking
condition; line 137 short-circuits on an empty snapshot; lines 140-144 parse
the watermark (propagating the uncaught ValueError of a malformed string);
lines 146-148 collect the new events; lines 151-153 merge the snapshot and
set last_update to the snapshot maximum. -/
def reconcileEntry (now : Nat) (autoremove : Bool) (entry0 : Entry)
    (info : TrackingInfo) : Except Unit RecRes :=
  let entry1 : Entry :=
    { entry0 with last_check := some (TSString.valid now), delivered := info.delivered }
  let notify : Bool := entry1.delivered && autoremove
  if info.updates.isEmpty then
    Except.ok ⟨entry1, [], notify⟩
  else
    match parseLastUpdate entry1.last_update with
    | Except.error e => Except.error e
    | Except.ok w =>
      Except.ok
        ⟨{ entry1 with
            updates := mergeUpdates entry1.updates info.updates,
            last_update := some (TSString.valid (maxKey info.updates)) },
          computeNew w info.updates, notify⟩

/-- Result projection: did the reconciliation complete without raising. -/
def recOk : Except Unit RecRes → Bool
  | Except.ok _ => true
  | Except.error _ => false

/-- Result projection: the mutated entry (defaultEntry on a raise). -/
def recEntry : Except Unit RecRes → Entry
  | Except.ok r => r.entry
  | Except.error _ => defaultEntry

/-- Result projection: the reported new events (empty on a raise). -/
def recNew : Except Unit RecRes → List (Nat × String)
  | Except.ok r => r.newEvents
  | Except.error _ => []

/-- Result projection: the finished-tracking condition (false on a raise). -/
def recNotify : Except Unit RecRes → Bool
  | Except.ok r => r.notify
  | Except.error _ => false

/-- The whole mutable state of one run of main: the tracking log, the
settings, and the per-run digest (tracking_updates). -/
structure Settings where
  tracking_numbers : List String
  autoremove : Bool
  alert : Bool
deriving DecidableEq, Repr

structure BatchState where
  log : List (String × Entry)
  settings : Settings
  digest : List (String × List (Nat × String))
deriving DecidableEq, Repr

/-- One iteration of the loop of main, lines 111-153, for one tracking
number: look up or create the entry, fetch the snapshot, reconcile, then, in
source order, append the finished-tracking item under the literal System
category and remove the number from the active list when line 131 fires, and
append each new event under the category equal to the bare number string. -/
def processNumber (now : Nat) (fetch : String → TrackingInfo) (st : BatchState)
    (number : String) : Except Unit BatchState :=
  let entry := (lookupKey number st.log).getD defaultEntry
  let info := fetch number
  match reconcileEntry now st.settings.autoremove entry info with
  | Except.error e => Except.error e
  | Except.ok r =>
    let digest1 :=
      if r.notify then
        appendItem st.digest ("System") ((now, ("Finished tracking ") ++ number))
      else st.digest
    let numbers1 :=
      if r.notify then st.settings.tracking_numbers.erase number
      else st.settings.tracking_numbers
    let digest2 := r.newEvents.foldl (fun d it => appendItem d number it) digest1
    Except.ok
      ⟨updateKey st.log number r.entry,
        { st.settings with tracking_numbers := numbers1 },
        digest2⟩

/-- The batch loop of main, lines 108-153: iterate over a copy of the active
tracking-number list (so in-loop removal is safe), threading log, settings
and digest; an uncaught exception in one iteration aborts the whole run. -/
def runBatch (now : Nat) (fetch : String → TrackingInfo) (settings : Settings)
    (log : List (String × Entry)) : Except Unit BatchState :=
  settings.tracking_numbers.foldlM (processNumber now fetch) ⟨log, settings, []⟩

/-- Batch projection: did the run complete. -/
def batchOk : Except Unit BatchState → Bool
  | Except.ok _ => true
  | Except.error _ => false

/-- Batch projection: the final tracking log (empty on an abort). -/
def batchLogOf : Except Unit BatchState → List (String × Entry)
  | Except.ok st => st.log
  | Except.error _ => []

/-- Batch projection: the final settings. -/
def batchSettingsOf : Except Unit BatchState → Settings
  | Except.ok st => st.settings
  | Except.error _ => ⟨[], false, false⟩

/-- Batch projection: the final digest (empty on an abort). -/
def batchDigestOf : Except Unit BatchState → List (String × List (Nat × String))
  | Except.ok st => st.digest
  | Except.error _ => []

/-- The canonical tracking URL, from correoschile.py, function track: a pure
derivation from the tracking number. -/
def canonicalUrl (tracking_number : String) : String :=
  "https://www.correos.cl/SitePages/seguimiento/seguimiento.aspx?envio=" ++
    tracking_number

/-- The snapshot-building loop of track_correoschile (lines 36-53) over the
well-formed rows extracted from the page: each row assigns its event under
its timestamp and sets delivered when the status is the terminal marker. -/
def trackFromRows (rows : List (Nat × Event)) : TrackingInfo :=
  rows.foldl
    (fun info p =>
      { updates := updateKey info.updates p.1 p.2,
        delivered := info.delivered || decide (p.2.status = "Envio entregado") })
    ⟨[], false⟩

/-- The snapshot a failed or empty fetch produces (lines 28-36: the tracking
table is absent, so the updates stay empty and delivered stays false). -/
def emptyTrackingInfo : TrackingInfo := ⟨[], false⟩

/-! Concrete inputs used by the claim verdicts and witnesses below. -/

def w1info : TrackingInfo :=
  ⟨[(3, ⟨"Posted", "Santiago"⟩), (5, ⟨"In transit", "Santiago"⟩)], false⟩

def w2entry : Entry :=
  ⟨none, some (TSString.valid 3), false, [(TSString.valid 3, ⟨"Posted", "Santiago"⟩)]⟩

def w2info : TrackingInfo :=
  ⟨[(3, ⟨"Posted", "Santiago"⟩), (7, ⟨"In transit", "Temuco"⟩)], false⟩

def c3entry : Entry :=
  ⟨none, some (TSString.valid 2), false, [(TSString.valid 2, ⟨"In transit", "Santiago"⟩)]⟩

def c3info : TrackingInfo := ⟨[(1, ⟨"Posted", "Santiago"⟩)], false⟩

def w3entry : Entry :=
  ⟨none, some (TSString.valid 4), false, [(TSString.valid 4, ⟨"Posted", "Arica"⟩)]⟩

def w3info : TrackingInfo := ⟨[(6, ⟨"In transit", "Arica"⟩)], false⟩

def c3wres : RecRes :=
  ⟨⟨some (TSString.valid 9), some (TSString.valid 6), false,
      [(TSString.valid 4, ⟨"Posted", "Arica"⟩),
        (TSString.valid 6, ⟨"In transit", "Arica"⟩)]⟩,
    [(6, ("In transit" : String))], false⟩

def c4entry : Entry :=
  ⟨none, some (TSString.valid 5), true,
    [(TSString.valid 5, ⟨"Envio entregado", "Santiago"⟩)]⟩

def c4infoNoMarker : TrackingInfo := ⟨[(6, ⟨"In transit", "Valparaiso"⟩)], false⟩

def w4info : TrackingInfo := ⟨[(2, ⟨"Envio entregado", "Santiago"⟩)], true⟩

def w4res : RecRes :=
  ⟨⟨some (TSString.valid 3), some (TSString.valid 2), true,
      [(TSString.valid 2, ⟨"Envio entregado", "Santiago"⟩)]⟩,
    [(2, ("Envio entregado" : String))], false⟩

def c5entry : Entry :=
  ⟨some (TSString.valid 3), some (TSString.valid 4), true,
    [(TSString.valid 4, ⟨"Envio entregado", "Concepcion"⟩)]⟩

def c6b2 : Entry :=
  ⟨some (TSString.valid 15), some (TSString.valid 12), true,
    [(TSString.valid 12, ⟨"Envio entregado", "Santiago"⟩)]⟩

def c6settings : Settings := ⟨[("B1"), ("B2"), ("B3")], false, true⟩

def c6log : List (String × Entry) := [(("B2"), c6b2)]

def c6fetch : String → TrackingInfo := fun n =>
  if n = ("B2" : String) then emptyTrackingInfo
  else if n = ("B1" : String) then ⟨[(21, ⟨"In transit", "Santiago"⟩)], false⟩
  else ⟨[(22, ⟨"Posted", "Santiago"⟩)], false⟩

def w6entry : Entry :=
  ⟨some (TSString.valid 2), some (TSString.valid 2), false,
    [(TSString.valid 2, ⟨"Posted", "Talca"⟩)]⟩

def w6st : BatchState := ⟨[(("N1"), w6entry)], ⟨[("N1")], true, true⟩, []⟩

def c7entry : Entry :=
  ⟨none, some (TSString.malformed ("2023-05-01 10:00")), false, []⟩

def c7info : TrackingInfo := ⟨[(3, ⟨"Posted", "Santiago"⟩)], false⟩

def w7info : TrackingInfo := ⟨[(4, ⟨"Posted", "Iquique"⟩)], false⟩

def c8entry : Entry :=
  ⟨some (TSString.valid 4), some (TSString.valid 5), true,
    [(TSString.valid 5, ⟨"Envio entregado", "Santiago"⟩)]⟩

def c8info : TrackingInfo := ⟨[(5, ⟨"Envio entregado", "Santiago"⟩)], true⟩

def c8st : BatchState := ⟨[(("P9"), c8entry)], ⟨[("P9")], true, true⟩, []⟩

def c8wentry : Entry :=
  ⟨some (TSString.valid 4), some (TSString.valid 5), true,
    [(TSString.valid 5, ⟨"Envio entregado", "Osorno"⟩)]⟩

def c8winfo : TrackingInfo := ⟨[(5, ⟨"Envio entregado", "Osorno"⟩)], true⟩

def c8wfetch : String → TrackingInfo := fun _ => c8winfo

def c8wst : BatchState := ⟨[(("Q7"), c8wentry)], ⟨[("Q7")], true, true⟩, []⟩

def c8wres : RecRes :=
  ⟨{ c8wentry with last_check := some (TSString.valid 14) }, [], true⟩

def c9info : TrackingInfo := ⟨[(6, ⟨"In transit", "Santiago"⟩)], false⟩

def c9st : BatchState := ⟨[], ⟨[("PX1")], false, true⟩, []⟩

def c9wfetch : String → TrackingInfo :=
  fun _ => ⟨[(7, ⟨"Envio entregado", "Santiago"⟩)], true⟩

def c9wst : BatchState := ⟨[], ⟨[("PY2")], true, true⟩, []⟩

def c9wres : RecRes :=
  ⟨⟨some (TSString.valid 13), some (TSString.valid 7), true,
      [(TSString.valid 7, ⟨"Envio entregado", "Santiago"⟩)]⟩,
    [(7, ("Envio entregado" : String))], true⟩

def c10settings : Settings := ⟨[("System")], true, true⟩

def c10fetch : String → TrackingInfo :=
  fun _ => ⟨[(8, ⟨"Envio entregado", "Santiago"⟩)], true⟩

/-! Helper lemmas about the dictionary and fold operations. -/

theorem lookupKey_updateKey_self {α β : Type} [DecidableEq α] (l : List (α × β))
    (k : α) (v : β) : lookupKey k (updateKey l k v) = some v := by
  induction l with
  | nil => simp [updateKey, lookupKey]
  | cons p t ih =>
    by_cases hp : p.1 = k
    · simp [updateKey, hp, lookupKey]
    · simp [updateKey, hp, lookupKey, ih]

theorem lookupKey_updateKey_other {α β : Type} [DecidableEq α] (l : List (α × β))
    (k k' : α) (v : β) (h : k' ≠ k) :
    lookupKey k' (updateKey l k v) = lookupKey k' l := by
  induction l with
  | nil => simp [updateKey, lookupKey, Ne.symm h]
  | cons p t ih =>
    by_cases hp : p.1 = k
    · simp [updateKey, hp, lookupKey, Ne.symm h]
    · simp [updateKey, hp, lookupKey, ih]

theorem lookupKey_updateKey_isSome {α β : Type} [DecidableEq α] (l : List (α × β))
    (k : α) (v : β) (k' : α) (h : (lookupKey k' l).isSome = true) :
    (lookupKey k' (updateKey l k v)).isSome = true := by
  by_cases hk : k' = k
  · subst hk; simp [lookupKey_updateKey_self]
  · rw [lookupKey_updateKey_other l k k' v hk]; exact h

theorem updateKey_id {α β : Type} [DecidableEq α] (l : List (α × β)) (k : α) (v : β)
    (h : lookupKey k l = some v) : updateKey l k v = l := by
  induction l with
  | nil => simp [lookupKey] at h
  | cons p t ih =>
    obtain ⟨p1, p2⟩ := p
    by_cases hp : p1 = k
    · subst hp
      simp [lookupKey] at h
      subst h
      simp [updateKey]
    · simp [lookupKey, hp] at h
      simp [updateKey, hp, ih h]

theorem updateKey_ne_nil {α β : Type} [DecidableEq α] (l : List (α × β)) (k : α)
    (v : β) : updateKey l k v ≠ [] := by
  cases l with
  | nil => simp [updateKey]
  | cons p t => by_cases hp : p.1 = k <;> simp [updateKey, hp]

theorem mergeUpdates_cons (l : List (TSString × Event)) (p : Nat × Event)
    (t : List (Nat × Event)) :
    mergeUpdates l (p :: t) = mergeUpdates (updateKey l (TSString.valid p.1) p.2) t := rfl

theorem mergeUpdates_lookup_isSome (snap : List (Nat × Event))
    (l : List (TSString × Event)) (k : TSString)
    (h : (lookupKey k l).isSome = true) :
    (lookupKey k (mergeUpdates l snap)).isSome = true := by
  induction snap generalizing l with
  | nil => exact h
  | cons p t ih =>
    rw [mergeUpdates_cons]
    exact ih _ (lookupKey_updateKey_isSome _ _ _ _ h)

theorem mergeUpdates_lookup_other (t : List (Nat × Event)) (l : List (TSString × Event))
    (k : TSString) (hk : ∀ q ∈ t, TSString.valid q.1 ≠ k) :
    lookupKey k (mergeUpdates l t) = lookupKey k l := by
  induction t generalizing l with
  | nil => rfl
  | cons p tt ih =>
    rw [mergeUpdates_cons, ih _ (fun q hq => hk q (List.mem_cons_of_mem _ hq))]
    exact lookupKey_updateKey_other _ _ _ _ (hk p (List.mem_cons_self _ _)).symm

theorem mergeUpdates_lookup_self (snap : List (Nat × Event))
    (hnd : (snap.map Prod.fst).Nodup) (l : List (TSString × Event)) :
    ∀ q ∈ snap, lookupKey (TSString.valid q.1) (mergeUpdates l snap) = some q.2 := by
  induction snap generalizing l with
  | nil => simp
  | cons p t ih =>
    simp only [List.map_cons, List.nodup_cons] at hnd
    intro q hq
    rcases List.mem_cons.mp hq with rfl | hq
    · rw [mergeUpdates_cons, mergeUpdates_lookup_other]
      · exact lookupKey_updateKey_self _ _ _
      · intro r hr hcontra
        exact hnd.1 (by
          have : r.1 = q.1 := by
            injection hcontra
          exact this ▸ List.mem_map_of_mem Prod.fst hr)
    · exact ih hnd.2 _ q hq

theorem mergeUpdates_id (snap : List (Nat × Event)) (l : List (TSString × Event))
    (h : ∀ q ∈ snap, lookupKey (TSString.valid q.1) l = some q.2) :
    mergeUpdates l snap = l := by
  induction snap with
  | nil => rfl
  | cons p t ih =>
    rw [mergeUpdates_cons, updateKey_id _ _ _ (h p (List.mem_cons_self _ _))]
    exact ih (fun q hq => h q (List.mem_cons_of_mem _ hq))

theorem computeNew_eq_filter (w : Option Nat) (l : List (Nat × Event)) :
    computeNew w l =
      (l.filter (fun p => isNewB w p.1)).map (fun p => (p.1, p.2.status)) := by
  have key : ∀ (l : List (Nat × Event)) (init : List (Nat × String)),
      l.foldl (fun acc p => if isNewB w p.1 then acc ++ [(p.1, p.2.status)] else acc)
          init =
        init ++ (l.filter (fun p => isNewB w p.1)).map (fun p => (p.1, p.2.status)) := by
    intro l
    induction l with
    | nil => intro init; simp
    | cons p t ih =>
      intro init
      by_cases hp : isNewB w p.1 = true
      · simp [List.foldl_cons, hp, List.filter_cons, ih]
      · simp [List.foldl_cons, hp, List.filter_cons, ih]
  simpa [computeNew] using key l []

theorem le_foldl_max (t : List (Nat × Event)) :
    ∀ a : Nat, a ≤ t.foldl (fun a p => max a p.1) a := by
  induction t with
  | nil => intro a; exact Nat.le_refl a
  | cons p t ih =>
    intro a
    exact le_trans (Nat.le_max_left a p.1) (ih (max a p.1))

theorem le_maxKey (l : List (Nat × Event)) : ∀ p ∈ l, p.1 ≤ maxKey l := by
  have key : ∀ (l : List (Nat × Event)) (a : Nat), ∀ p ∈ l,
      p.1 ≤ l.foldl (fun a q => max a q.1) a := by
    intro l
    induction l with
    | nil => simp
    | cons q t ih =>
      intro a p hp
      rcases List.mem_cons.mp hp with rfl | hp
      · exact le_trans (Nat.le_max_right a p.1) (le_foldl_max t (max a p.1))
      · exact ih (max a q.1) p hp
  exact key l 0

theorem reconcileEntry_nonempty (now : Nat) (a : Bool) (e : Entry)
    (info : TrackingInfo) (w : Option Nat) (hne : info.updates ≠ [])
    (hw : parseLastUpdate e.last_update = Except.ok w) :
    reconcileEntry now a e info = Except.ok
      ⟨{ e with
          last_check := some (TSString.valid now)
          delivered := info.delivered
          updates := mergeUpdates e.updates info.updates
          last_update := some (TSString.valid (maxKey info.updates)) },
        computeNew w info.updates, info.delivered && a⟩ := by
  have hie : info.updates.isEmpty = false := by
    cases h : info.updates with
    | nil => exact absurd h hne
    | cons p t => rfl
  simp [reconcileEntry, hie, hw]

theorem reconcileEntry_emptyInfo (now : Nat) (a : Bool) (e : Entry) :
    reconcileEntry now a e emptyTrackingInfo =
      Except.ok ⟨{ e with
          last_check := some (TSString.valid now)
          delivered := false }, [], false⟩ := rfl

theorem reconcileEntry_ok_notify (now : Nat) (a : Bool) (e : Entry)
    (info : TrackingInfo) (r : RecRes)
    (h : reconcileEntry now a e info = Except.ok r) :
    r.notify = (info.delivered && a) := by
  by_cases hie : info.updates.isEmpty
  · simp [reconcileEntry, hie] at h
    rw [← h]
  · simp only [reconcileEntry, hie] at h
    cases hp : parseLastUpdate e.last_update with
    | error err => simp [hp] at h
    | ok w =>
      simp [hp] at h
      rw [← h]

theorem reconcileEntry_ok_delivered (now : Nat) (a : Bool) (e : Entry)
    (info : TrackingInfo) (r : RecRes)
    (h : reconcileEntry now a e info = Except.ok r) :
    r.entry.delivered = info.delivered := by
  by_cases hie : info.updates.isEmpty
  · simp [reconcileEntry, hie] at h
    rw [← h]
  · simp only [reconcileEntry, hie] at h
    cases hp : parseLastUpdate e.last_update with
    | error err => simp [hp] at h
    | ok w =>
      simp [hp] at h
      rw [← h]

theorem processNumber_ok (now : Nat) (fetch : String → TrackingInfo)
    (st : BatchState) (number : String) (r : RecRes)
    (h : reconcileEntry now st.settings.autoremove
        ((lookupKey number st.log).getD defaultEntry) (fetch number) =
      Except.ok r) :
    processNumber now fetch st number = Except.ok
      ⟨updateKey st.log number r.entry,
        { st.settings with tracking_numbers :=
            if r.notify then st.settings.tracking_numbers.erase number
            else st.settings.tracking_numbers },
        r.newEvents.foldl (fun d it => appendItem d number it)
          (if r.notify then
            appendItem st.digest ("System") ((now, ("Finished tracking ") ++ number))
          else st.digest)⟩ := by
  simp [processNumber, h]

theorem digestGet_appendItem_self (d : List (String × List (Nat × String)))
    (k : String) (it : Nat × String) :
    digestGet (appendItem d k it) k = digestGet d k ++ [it] := by
  induction d with
  | nil => simp [appendItem, digestGet, lookupKey]
  | cons p t ih =>
    by_cases hp : p.1 = k
    · simp [appendItem, hp, digestGet, lookupKey]
    · simp only [appendItem, hp, if_false, digestGet, lookupKey] at *
      simp [hp, ih]

theorem digestGet_appendItem_other (d : List (String × List (Nat × String)))
    (k : String) (it : Nat × String) (k' : String) (h : k' ≠ k) :
    digestGet (appendItem d k it) k' = digestGet d k' := by
  induction d with
  | nil => simp [appendItem, digestGet, lookupKey, Ne.symm h]
  | cons p t ih =>
    by_cases hp : p.1 = k
    · simp [appendItem, hp, digestGet, lookupKey, Ne.symm h]
    · simp only [appendItem, hp, if_false, digestGet, lookupKey] at *
      by_cases hp' : p.1 = k'
      · simp [hp']
      · simp [hp', ih]

theorem digestGet_foldl_appendItem_self (l : List (Nat × String))
    (d : List (String × List (Nat × String))) (k : String) :
    digestGet (l.foldl (fun d it => appendItem d k it) d) k = digestGet d k ++ l := by
  induction l generalizing d with
  | nil => simp
  | cons it t ih =>
    simp only [List.foldl_cons]
    rw [ih, digestGet_appendItem_self]
    simp

theorem digestGet_foldl_appendItem_other (l : List (Nat × String))
    (d : List (String × List (Nat × String))) (k k' : String) (h : k' ≠ k) :
    digestGet (l.foldl (fun d it => appendItem d k it) d) k' = digestGet d k' := by
  induction l generalizing d with
  | nil => rfl
  | cons it t ih =>
    simp only [List.foldl_cons]
    rw [ih, digestGet_appendItem_other _ _ _ _ h]

theorem trackFromRows_empty (rows : List (Nat × Event))
    (h : (trackFromRows rows).updates = []) : trackFromRows rows = emptyTrackingInfo := by
  cases hr : rows with
  | nil => rfl
  | cons r t =>
    exfalso
    have key : ∀ (t : List (Nat × Event)) (info : TrackingInfo), info.updates ≠ [] →
        (t.foldl (fun info p =>
          { updates := updateKey info.updates p.1 p.2,
            delivered :=
              info.delivered || decide (p.2.status = "Envio entregado") })
          info).updates ≠ [] := by
      intro t
      induction t with
      | nil => intro info hi; exact hi
      | cons q tt ih => intro info hi; exact ih _ (updateKey_ne_nil _ _ _)
    rw [hr] at h
    exact key t _ (updateKey_ne_nil _ _ _) h

theorem reconcileEntry_error (now : Nat) (a : Bool) (e : Entry)
    (info : TrackingInfo) (hne : info.updates ≠ [])
    (hw : parseLastUpdate e.last_update = Except.error ()) :
    reconcileEntry now a e info = Except.error () := by
  have hie : info.updates.isEmpty = false := by
    cases h : info.updates with
    | nil => exact absurd h hne
    | cons p t => rfl
  simp [reconcileEntry, hie, hw]

/-! Claim verdicts. -/

/-- C1: for every record whose persisted last_update parses to a watermark
or is absent, and every non-empty snapshot, reconciliation succeeds and the
reported new events are exactly the snapshot events whose timestamp is
strictly greater than the watermark — all snapshot events when the watermark
is absent — no more, no fewer, in snapshot order. -/
theorem c1_new_event_completeness (now : Nat) (a : Bool) (e : Entry)
    (info : TrackingInfo) (w : Option Nat) (hne : info.updates ≠ [])
    (hw : parseLastUpdate e.last_update = Except.ok w) :
    recOk (reconcileEntry now a e info) = true ∧
    recNew (reconcileEntry now a e info) =
      (info.updates.filter (fun p => isNewB w p.1)).map
        (fun p => (p.1, p.2.status)) := by
  rw [reconcileEntry_nonempty now a e info w hne hw]
  exact ⟨rfl, computeNew_eq_filter w info.updates⟩

/-- C1 witness: a first-poll record and a two-event snapshot. -/
theorem c1_witness :
    (w1info.updates ≠ []) ∧
    (parseLastUpdate defaultEntry.last_update = Except.ok none) ∧
    (recOk (reconcileEntry 9 false defaultEntry w1info) = true ∧
      recNew (reconcileEntry 9 false defaultEntry w1info) =
        (w1info.updates.filter (fun p => isNewB none p.1)).map
          (fun p => (p.1, p.2.status))) :=
  ⟨by decide, rfl,
    c1_new_event_completeness 9 false defaultEntry w1info none (by decide) rfl⟩

/-- C2: reconciliation is idempotent: after a successful run on a non-empty
snapshot, rerunning with the identical snapshot succeeds, reports zero new
events, and changes the record only in last_check (same last_update, same
events mapping, same delivered flag). -/
theorem c2_idempotent (now now2 : Nat) (a a2 : Bool) (e : Entry)
    (info : TrackingInfo) (hne : info.updates ≠ [])
    (hnd : (info.updates.map Prod.fst).Nodup)
    (hok : recOk (reconcileEntry now a e info) = true) :
    recOk (reconcileEntry now2 a2 (recEntry (reconcileEntry now a e info)) info) =
      true ∧
    recNew (reconcileEntry now2 a2 (recEntry (reconcileEntry now a e info)) info) =
      [] ∧
    recEntry (reconcileEntry now2 a2 (recEntry (reconcileEntry now a e info)) info) =
      { recEntry (reconcileEntry now a e info) with
          last_check := some (TSString.valid now2) } := by
  cases hw : parseLastUpdate e.last_update with
  | error err =>
    cases err
    rw [reconcileEntry_error now a e info hne hw] at hok
    simp [recOk] at hok
  | ok w =>
    rw [reconcileEntry_nonempty now a e info w hne hw]
    simp only [recEntry]
    rw [reconcileEntry_nonempty now2 a2
      { e with
          last_check := some (TSString.valid now)
          delivered := info.delivered
          updates := mergeUpdates e.updates info.updates
          last_update := some (TSString.valid (maxKey info.updates)) }
      info (some (maxKey info.updates)) hne rfl]
    have hnil : computeNew (some (maxKey info.updates)) info.updates = [] := by
      rw [computeNew_eq_filter]
      have hf : info.updates.filter
          (fun p => isNewB (some (maxKey info.updates)) p.1) = [] := by
        rw [List.filter_eq_nil_iff]
        intro p hp
        simp [isNewB, Nat.not_lt]
        exact le_maxKey info.updates p hp
      rw [hf]
      rfl
    have hm : mergeUpdates (mergeUpdates e.updates info.updates) info.updates =
        mergeUpdates e.updates info.updates :=
      mergeUpdates_id _ _ (mergeUpdates_lookup_self info.updates hnd e.updates)
    refine ⟨rfl, ?_, ?_⟩
    · simp only [recNew]
      exact hnil
    · simp only [recEntry]
      simp [hm]

/-- C2 witness: a record holding the first of two events, then the full
two-event snapshot applied twice. -/
theorem c2_witness :
    (w2info.updates ≠ []) ∧ ((w2info.updates.map Prod.fst).Nodup) ∧
    (recOk (reconcileEntry 10 false w2entry w2info) = true) ∧
    (recOk (reconcileEntry 11 false
        (recEntry (reconcileEntry 10 false w2entry w2info)) w2info) = true ∧
      recNew (reconcileEntry 11 false
        (recEntry (reconcileEntry 10 false w2entry w2info)) w2info) = [] ∧
      recEntry (reconcileEntry 11 false
        (recEntry (reconcileEntry 10 false w2entry w2info)) w2info) =
        { recEntry (reconcileEntry 10 false w2entry w2info) with
            last_check := some (TSString.valid 11) }) :=
  ⟨by decide, by decide, rfl,
    c2_idempotent 10 11 false false w2entry w2info (by decide) (by decide) rfl⟩

/-- C3 counterexample: a snapshot whose maximum timestamp (1) is older than
the current watermark (2) makes last_update decrease, because line 153
overwrites it with the snapshot maximum alone. -/
theorem c3_counterexample :
    c3entry.last_update = some (TSString.valid 2) ∧
    (recEntry (reconcileEntry 9 false c3entry c3info)).last_update =
      some (TSString.valid 1) ∧
    (1 : Nat) < 2 :=
  ⟨rfl, rfl, by decide⟩

/-- C3 amended: on every poll that does not raise — whatever the snapshot
and whatever the persisted watermark, absent, valid or on the decreasing
path — previously merged events are never removed from the events mapping;
last_update, however, never decreases only provided every non-empty snapshot
has maximum timestamp at least the current watermark (as holds for the
cumulative full-history resends the carrier sends); for an arbitrary older
snapshot it is overwritten with the snapshot maximum and can decrease. -/
theorem c3_amended_monotone (now : Nat) (a : Bool) (e : Entry)
    (info : TrackingInfo) (r : RecRes)
    (h : reconcileEntry now a e info = Except.ok r) :
    (∀ k, (lookupKey k e.updates).isSome = true →
      (lookupKey k r.entry.updates).isSome = true) ∧
    (∀ w, e.last_update = some (TSString.valid w) →
      info.updates = [] ∨ w ≤ maxKey info.updates →
      ∃ w2, r.entry.last_update = some (TSString.valid w2) ∧ w ≤ w2) := by
  by_cases hie : info.updates = []
  · have hred : reconcileEntry now a e info =
        Except.ok ⟨{ e with
            last_check := some (TSString.valid now)
            delivered := info.delivered }, [], info.delivered && a⟩ := by
      simp [reconcileEntry, hie]
    rw [hred] at h
    have hr := Except.ok.inj h
    subst hr
    refine ⟨fun k hk => hk, fun w hwv _ => ⟨w, hwv, Nat.le_refl w⟩⟩
  · cases hw : parseLastUpdate e.last_update with
    | error err =>
      cases err
      rw [reconcileEntry_error now a e info hie hw] at h
      exact Except.noConfusion h
    | ok w0 =>
      rw [reconcileEntry_nonempty now a e info w0 hie hw] at h
      have hr := Except.ok.inj h
      subst hr
      refine ⟨fun k hk => ?_, fun w hwv hmax => ?_⟩
      · exact mergeUpdates_lookup_isSome info.updates e.updates k hk
      · rcases hmax with hx | hx
        · exact absurd hx hie
        · exact ⟨maxKey info.updates, rfl, hx⟩

/-- C3 witness: a successful poll with watermark 4 and a fresh snapshot
whose maximum is 6. -/
theorem c3_witness :
    (reconcileEntry 9 false w3entry w3info = Except.ok c3wres) ∧
    ((∀ k, (lookupKey k w3entry.updates).isSome = true →
      (lookupKey k c3wres.entry.updates).isSome = true) ∧
    (∀ w, w3entry.last_update = some (TSString.valid w) →
      w3info.updates = [] ∨ w ≤ maxKey w3info.updates →
      ∃ w2, c3wres.entry.last_update = some (TSString.valid w2) ∧ w ≤ w2)) :=
  ⟨rfl, c3_amended_monotone 9 false w3entry w3info c3wres rfl⟩

/-- C4 counterexample: a record already marked delivered reverts to
undelivered both on an empty snapshot and on a non-empty snapshot lacking
the terminal marker, because line 130 overwrites the flag unconditionally. -/
theorem c4_counterexample :
    c4entry.delivered = true ∧
    (recEntry (reconcileEntry 9 true c4entry emptyTrackingInfo)).delivered =
      false ∧
    (recEntry (reconcileEntry 9 true c4entry c4infoNoMarker)).delivered =
      false :=
  ⟨rfl, rfl, rfl⟩

/-- C4 amended: the delivered flag is not monotonic; every poll that does
not raise overwrites it with the delivered flag of the fetched snapshot, so
it reverts to false whenever a later snapshot (empty, or lacking the
terminal marker) does not report delivery. -/
theorem c4_amended_delivered_overwritten (now : Nat) (a : Bool) (e : Entry)
    (info : TrackingInfo) (r : RecRes)
    (h : reconcileEntry now a e info = Except.ok r) :
    r.entry.delivered = info.delivered :=
  reconcileEntry_ok_delivered now a e info r h

/-- C4 witness: a first poll whose snapshot carries the delivered marker. -/
theorem c4_witness :
    (reconcileEntry 3 false defaultEntry w4info = Except.ok w4res) ∧
    (w4res.entry.delivered = w4info.delivered) :=
  ⟨rfl, c4_amended_delivered_overwritten 3 false defaultEntry w4info w4res rfl⟩

/-- C5 counterexample: reconciling an empty snapshot does not leave the
delivered flag unchanged: a record previously marked delivered comes out
with delivered = false, so more than last_check changes. -/
theorem c5_counterexample :
    c5entry.delivered = true ∧
    recNew (reconcileEntry 8 false c5entry emptyTrackingInfo) = [] ∧
    (recEntry (reconcileEntry 8 false c5entry emptyTrackingInfo)).delivered =
      false :=
  ⟨rfl, rfl, rfl⟩

/-- C5 amended: reconciling the empty snapshot of a failed or event-free
fetch never raises, reports zero new events, leaves last_update and the
events mapping unchanged, and changes only last_check and the delivered
flag, the latter overwritten to false; for a record not currently marked
delivered this is exactly the claimed frame (only last_check changes). -/
theorem c5_amended_empty_frame (now : Nat) (a : Bool) (e : Entry) :
    reconcileEntry now a e emptyTrackingInfo =
      Except.ok ⟨{ e with
          last_check := some (TSString.valid now)
          delivered := false }, [], false⟩ := rfl

/-- C6 counterexample: in a three-number batch where the middle fetch fails
(empty snapshot), the batch does complete and the other two numbers are
reconciled, but the failed number's record does not change only in
last_check: its delivered flag, previously true, is overwritten to false. -/
theorem c6_counterexample :
    c6b2.delivered = true ∧
    batchOk (runBatch 25 c6fetch c6settings c6log) = true ∧
    lookupKey ("B2" : String) (batchLogOf (runBatch 25 c6fetch c6settings c6log)) =
      some { c6b2 with
        last_check := some (TSString.valid 25)
        delivered := false } ∧
    (lookupKey ("B1" : String)
      (batchLogOf (runBatch 25 c6fetch c6settings c6log))).isSome = true ∧
    (lookupKey ("B3" : String)
      (batchLogOf (runBatch 25 c6fetch c6settings c6log))).isSome = true :=
  ⟨rfl, rfl, rfl, rfl, rfl⟩

/-- C6 amended: a per-number fetch failure — which, as in track_correoschile
when the page has no tracking table, yields the empty snapshot — never
raises and never aborts the batch iteration: the digest and the settings are
left untouched and the failed number's record changes only in last_check and
delivered (the latter overwritten to false), so every other number is still
processed and the updated state is still persisted. -/
theorem c6_amended_failure_isolated (now : Nat) (fetch : String → TrackingInfo)
    (st : BatchState) (n : String) (hf : fetch n = emptyTrackingInfo) :
    processNumber now fetch st n = Except.ok
      ⟨updateKey st.log n { (lookupKey n st.log).getD defaultEntry with
          last_check := some (TSString.valid now)
          delivered := false },
        st.settings, st.digest⟩ := by
  have hrec : reconcileEntry now st.settings.autoremove
      ((lookupKey n st.log).getD defaultEntry) (fetch n) =
      Except.ok ⟨{ (lookupKey n st.log).getD defaultEntry with
          last_check := some (TSString.valid now)
          delivered := false }, [], false⟩ := by
    rw [hf]
    exact reconcileEntry_emptyInfo now _ _
  rw [processNumber_ok now fetch st n _ hrec]
  simp

/-- C6 witness: a failing fetch for a tracked number with an existing
record. -/
theorem c6_witness :
    ((fun (_ : String) => emptyTrackingInfo) ("N1" : String) = emptyTrackingInfo) ∧
    (processNumber 19 (fun _ => emptyTrackingInfo) w6st ("N1" : String) =
      Except.ok
        ⟨updateKey w6st.log ("N1")
            { (lookupKey ("N1" : String) w6st.log).getD defaultEntry with
              last_check := some (TSString.valid 19)
              delivered := false },
          w6st.settings, w6st.digest⟩) :=
  ⟨rfl, c6_amended_failure_isolated 19 (fun _ => emptyTrackingInfo) w6st ("N1") rfl⟩

/-- C7 counterexample: a persisted last_update string that does not parse
raises an uncaught ValueError on a non-empty snapshot — the run crashes
instead of degrading to first-poll semantics. -/
theorem c7_counterexample :
    reconcileEntry 9 false c7entry c7info = Except.error () := rfl

/-- C7 amended: only a None persisted last_update degrades gracefully to
first-poll semantics — the watermark is absent and every event of a
non-empty snapshot is reported new; a non-None string that does not parse
raises an uncaught ValueError (line 143 catches only TypeError) and the run
crashes. -/
theorem c7_amended_none_first_poll (now : Nat) (a : Bool) (e : Entry)
    (info : TrackingInfo) (hlu : e.last_update = none)
    (hne : info.updates ≠ []) :
    recOk (reconcileEntry now a e info) = true ∧
    recNew (reconcileEntry now a e info) =
      info.updates.map (fun p => (p.1, p.2.status)) := by
  have hw : parseLastUpdate e.last_update = Except.ok none := by rw [hlu]; rfl
  rw [reconcileEntry_nonempty now a e info none hne hw]
  refine ⟨rfl, ?_⟩
  show computeNew none info.updates = _
  rw [computeNew_eq_filter]
  congr 1
  simp [isNewB]

/-- C7 witness: a fresh record (last_update absent) and a one-event
snapshot. -/
theorem c7_witness :
    (defaultEntry.last_update = none) ∧ (w7info.updates ≠ []) ∧
    (recOk (reconcileEntry 6 false defaultEntry w7info) = true ∧
      recNew (reconcileEntry 6 false defaultEntry w7info) =
        w7info.updates.map (fun p => (p.1, p.2.status))) :=
  ⟨rfl, by decide,
    c7_amended_none_first_poll 6 false defaultEntry w7info rfl (by decide)⟩

/-- C8 counterexample: a record that is already delivered and still listed,
polled again with autoremove enabled and a snapshot still carrying the
delivered marker, produces the finished-tracking digest entry again — the
notification is not restricted to the false-to-true transition. -/
theorem c8_counterexample :
    c8entry.delivered = true ∧
    processNumber 9 (fun _ => c8info) c8st ("P9" : String) = Except.ok
      ⟨[(("P9"), { c8entry with last_check := some (TSString.valid 9) })],
        ⟨[], true, true⟩,
        [(("System"), [(9, ("Finished tracking P9" : String))])]⟩ :=
  ⟨rfl, rfl⟩

/-- C8 amended: with autoremove enabled, the finished-tracking digest entry
is produced on every successful poll whose snapshot reports delivered —
there is no transition check, so a still-listed already-delivered record
re-notifies — and on each such poll the number is removed from the active
tracking list; at most one notice per number holds only because that removal
prevents further polls of the number. -/
theorem c8_amended_notify_every_delivered_poll (now : Nat)
    (fetch : String → TrackingInfo) (st : BatchState) (n : String) (r : RecRes)
    (hd : (fetch n).delivered = true) (ha : st.settings.autoremove = true)
    (hn : n ≠ ("System" : String))
    (h : reconcileEntry now st.settings.autoremove
        ((lookupKey n st.log).getD defaultEntry) (fetch n) = Except.ok r) :
    ∃ st2, processNumber now fetch st n = Except.ok st2 ∧
      st2.settings.tracking_numbers = st.settings.tracking_numbers.erase n ∧
      digestGet st2.digest ("System") =
        digestGet st.digest ("System") ++
          [(now, ("Finished tracking " : String) ++ n)] := by
  have hnot : r.notify = true := by
    rw [reconcileEntry_ok_notify now _ _ _ r h, hd, ha]
    rfl
  refine ⟨_, processNumber_ok now fetch st n r h, ?_, ?_⟩
  · simp [hnot]
  · simp only [hnot, if_true]
    rw [digestGet_foldl_appendItem_other _ _ _ _ (Ne.symm hn)]
    exact digestGet_appendItem_self _ _ _

/-- C8 witness: an already-delivered, still-listed record polled again with
autoremove on. -/
theorem c8_witness :
    ((c8wfetch ("Q7" : String)).delivered = true) ∧
    (c8wst.settings.autoremove = true) ∧
    (("Q7" : String) ≠ ("System" : String)) ∧
    (reconcileEntry 14 c8wst.settings.autoremove
      ((lookupKey ("Q7" : String) c8wst.log).getD defaultEntry)
      (c8wfetch ("Q7" : String)) = Except.ok c8wres) ∧
    (∃ st2, processNumber 14 c8wfetch c8wst ("Q7" : String) = Except.ok st2 ∧
      st2.settings.tracking_numbers =
        c8wst.settings.tracking_numbers.erase ("Q7") ∧
      digestGet st2.digest ("System") =
        digestGet c8wst.digest ("System") ++
          [(14, ("Finished tracking " : String) ++ ("Q7" : String))]) :=
  ⟨rfl, rfl, by decide, rfl,
    c8_amended_notify_every_delivered_poll 14 c8wfetch c8wst ("Q7") c8wres
      rfl rfl (by decide) rfl⟩

/-- C9 counterexample: the digest category under which a number's new events
are filed is the bare tracking-number string itself, not a pair carrying the
canonical tracking URL: the concrete run files the event under the key PX1,
which differs from (and is strictly shorter than) the canonical URL, so no
URL is obtained or attached. -/
theorem c9_counterexample :
    processNumber 12 (fun _ => c9info) c9st ("PX1" : String) = Except.ok
      ⟨[(("PX1"), ⟨some (TSString.valid 12), some (TSString.valid 6), false,
          [(TSString.valid 6, ⟨"In transit", "Santiago"⟩)]⟩)],
        c9st.settings,
        [(("PX1"), [(6, ("In transit" : String))])]⟩ ∧
    ("PX1" : String) ≠ canonicalUrl ("PX1") ∧
    ("PX1" : String).length < (canonicalUrl ("PX1")).length :=
  ⟨rfl, by decide, by decide⟩

/-- C9 amended: on every poll that does not raise — delivered or not — each
new event is appended to the digest, in order, under the category equal to
the bare tracking-number string; no canonical URL is derived or attached
(main uses its own track_correoschile, which returns no URL — the canonical
URL derivation exists only in the unused correoschile.track).  The one
pathological exception is the number equal to the literal System itself,
whose category additionally receives the finished-tracking items (claim
C10). -/
theorem c9_amended_bare_number_category (now : Nat)
    (fetch : String → TrackingInfo) (st : BatchState) (n : String) (r : RecRes)
    (hn : n ≠ ("System" : String))
    (h : reconcileEntry now st.settings.autoremove
        ((lookupKey n st.log).getD defaultEntry) (fetch n) = Except.ok r) :
    ∃ st2, processNumber now fetch st n = Except.ok st2 ∧
      digestGet st2.digest n = digestGet st.digest n ++ r.newEvents := by
  refine ⟨_, processNumber_ok now fetch st n r h, ?_⟩
  cases hnot : r.notify with
  | false =>
    simp only [hnot, Bool.false_eq_true, if_false]
    exact digestGet_foldl_appendItem_self r.newEvents st.digest n
  | true =>
    simp only [hnot, if_true]
    rw [digestGet_foldl_appendItem_self]
    rw [digestGet_appendItem_other _ _ _ _ hn]

/-- C9 witness: a delivered poll (autoremove on) whose snapshot carries one
new event, the terminal marker itself. -/
theorem c9_witness :
    (("PY2" : String) ≠ ("System" : String)) ∧
    (reconcileEntry 13 c9wst.settings.autoremove
      ((lookupKey ("PY2" : String) c9wst.log).getD defaultEntry)
      (c9wfetch ("PY2" : String)) = Except.ok c9wres) ∧
    (∃ st2, processNumber 13 c9wfetch c9wst ("PY2" : String) = Except.ok st2 ∧
      digestGet st2.digest ("PY2") =
        digestGet c9wst.digest ("PY2") ++ c9wres.newEvents) :=
  ⟨by decide, rfl,
    c9_amended_bare_number_category 13 c9wfetch c9wst ("PY2") c9wres (by decide) rfl⟩

/-- C10: digest categories are raw strings, so for the tracking number equal
to the literal System the synthetic finished-tracking item and the package's
own new-event item are accumulated, in that order, under one and the same
digest category — the final digest of the run has the single key System
holding both items, indistinguishable to a notifier. -/
theorem c10_system_category_collision :
    runBatch 30 c10fetch c10settings [] = Except.ok
      ⟨[(("System"), ⟨some (TSString.valid 30), some (TSString.valid 8), true,
          [(TSString.valid 8, ⟨"Envio entregado", "Santiago"⟩)]⟩)],
        ⟨[], true, true⟩,
        [(("System"),
          [(30, ("Finished tracking System" : String)),
            (8, ("Envio entregado" : String))])]⟩ :=
  rfl

end PackageTracker
